import Mathlib

/-!
# next-perfect-score-config

A shallow embedding of the two source files of the repository:

* `src/index.js`: the `WebVitalsReporter` component and the callback it hands to
  `useReportWebVitals`;
* `src/next.config.js`: the `nextConfig` object literal, its `headers()` method and the
  `withBundleAnalyzer` wrapper.

JavaScript values are embedded as the inductive type `JSValue`; `process.env` is the record
`Env` of the two variables the code reads.
-/

namespace NextPerfectScore

/-! ## Data model -/

/-- The part of `process.env` the code reads. A variable is a string or unset (`undefined`). -/
structure Env where
  NODE_ENV : Option String
  ANALYZE : Option String

/-- The JavaScript test `v === lit` for an environment variable `v` (a string or `undefined`)
against a string literal: true exactly when `v` is set to that very string. -/
def strictEq (v : Option String) (lit : String) : Bool :=
  decide (v = some lit)

/-- JavaScript values occurring in `next.config.js`. Numbers are the integer literals of the
file; an object is its list of own properties in declaration order; `asyncFn body` is a
parameterless `async` method whose promise resolves to `body ()`. -/
inductive JSValue where
  | undefined : JSValue
  | null : JSValue
  | bool (b : Bool) : JSValue
  | num (n : Int) : JSValue
  | str (s : String) : JSValue
  | arr (items : List JSValue) : JSValue
  | obj (props : List (String × JSValue)) : JSValue
  | asyncFn (body : Unit → JSValue) : JSValue

namespace JSValue

/-- Property read `v[key]` on an object literal: the value declared under `key` (the object
literals of the file declare each key once), `undefined` when the key is absent. Values that
are not object literals are treated as leaves: reading a property from one gives `undefined`. -/
def get (v : JSValue) (key : String) : JSValue :=
  match v with
  | obj props => (props.lookup key).getD undefined
  | _ => undefined

/-- Chained property read `v[k₁][k₂]...`. -/
def getPath (v : JSValue) (path : List String) : JSValue :=
  path.foldl get v

/-- The own keys of an object, in declaration order (`Object.keys`). -/
def keys (v : JSValue) : List String :=
  match v with
  | obj props => props.map Prod.fst
  | _ => []

/-- Property write `v[key] = new` on an object that already has the key. -/
def set (v : JSValue) (key : String) (new : JSValue) : JSValue :=
  match v with
  | obj props => obj (props.map fun p => if p.1 = key then (p.1, new) else p)
  | other => other

/-- Nested property write `v[k₁][k₂]... = new` along a path of existing keys. -/
def setPath : JSValue → List String → JSValue → JSValue
  | _, [], new => new
  | v, k :: ks, new => set v k (setPath (get v k) ks new)

/-- The value an `async` method call `await v()` resolves to; `none` when `v` is not callable. -/
def callAsync (v : JSValue) : Option JSValue :=
  match v with
  | asyncFn body => some (body ())
  | _ => none

/-- The elements of an array value. -/
def items? (v : JSValue) : Option (List JSValue) :=
  match v with
  | arr xs => some xs
  | _ => none

/-- The integer behind a number value. -/
def num? (v : JSValue) : Option Int :=
  match v with
  | num n => some n
  | _ => none

/-- An array of numbers read as a list of integers. -/
def numbers? (v : JSValue) : Option (List Int) :=
  match v with
  | arr xs => xs.mapM num?
  | _ => none

end JSValue

open JSValue

/-! ## `src/next.config.js` -/

/-- The argument of `require('@next/bundle-analyzer')(...)`, lines 10-12. -/
def analyzerOptions (env : Env) : JSValue :=
  obj [("enabled", bool (strictEq env.ANALYZE "true"))]

/-- The value of `withBundleAnalyzer`: the external plugin factory applied to its options. -/
def withBundleAnalyzer (plugin : JSValue → JSValue → JSValue) (env : Env) :
    JSValue → JSValue :=
  plugin (analyzerOptions env)

/-- The body of the `headers()` method, lines 23-44. -/
def headers (_ : Unit) : JSValue :=
  arr [
    obj [
      ("source", str "/_next/static/:path*"),
      ("headers", arr [
        obj [
          ("key", str "Cache-Control"),
          ("value", str "public, max-age=31536000, immutable")]])],
    obj [
      ("source", str "/images/:path*"),
      ("headers", arr [
        obj [
          ("key", str "Cache-Control"),
          ("value", str "public, max-age=31536000, immutable")]])]]

/-- The object literal `nextConfig`, lines 15-77. -/
def nextConfig (env : Env) : JSValue :=
  obj [
    ("images", obj [
      ("formats", arr [str "image/avif", str "image/webp"]),
      ("minimumCacheTTL", num 31536000),
      ("deviceSizes", arr [num 640, num 750, num 828, num 1080, num 1200, num 1920, num 2048,
        num 3840]),
      ("imageSizes", arr [num 16, num 32, num 48, num 64, num 96, num 128, num 256, num 384])]),
    ("headers", asyncFn headers),
    ("experimental", obj [
      ("inlineCss", bool true),
      ("optimizePackageImports", arr [
        str "lucide-react",
        str "date-fns",
        str "react-hook-form",
        str "@radix-ui/react-dialog",
        str "@radix-ui/react-dropdown-menu"]),
      ("webpackBuildWorker", bool true)]),
    ("compiler", obj [
      ("removeConsole", bool (strictEq env.NODE_ENV "production"))]),
    ("reactCompiler", bool true),
    ("modularizeImports", obj [
      ("lucide-react", obj [
        ("transform", str "lucide-react/dist/esm/icons/\x7b\x7bkebabCase member\x7d\x7d"),
        ("skipDefaultConversion", bool false)]),
      ("date-fns", obj [
        ("transform", str "date-fns/\x7b\x7bmember\x7d\x7d")])]),
    ("poweredByHeader", bool false),
    ("productionBrowserSourceMaps", bool false),
    ("compress", bool true)]

/-- The value of `module.exports`, line 79. -/
def moduleExports (plugin : JSValue → JSValue → JSValue) (env : Env) : JSValue :=
  withBundleAnalyzer plugin env (nextConfig env)

/-! ## `src/index.js` -/

/-- Observable effects a metrics callback can have on its host page: a `console.log` write of
a value, or an analytics event pushed through `window.gtag`. -/
inductive Effect (μ : Type) where
  | consoleLog (arg : μ) : Effect μ
  | gtagEvent (arg : μ) : Effect μ

/-- The console entries among a trace of effects, in order. -/
def consoleWrites {μ : Type} (trace : List (Effect μ)) : List μ :=
  trace.filterMap fun e =>
    match e with
    | Effect.consoleLog a => some a
    | Effect.gtagEvent _ => none

/-- The analytics events among a trace of effects, in order. -/
def gtagEvents {μ : Type} (trace : List (Effect μ)) : List μ :=
  trace.filterMap fun e =>
    match e with
    | Effect.consoleLog _ => none
    | Effect.gtagEvent a => some a

/-- What one invocation of a callback leaves behind: the returned value, the metric record
after the call, and the effects performed, in order. -/
structure Outcome (μ : Type) where
  returned : JSValue
  metric : μ
  effects : List (Effect μ)

/-- The arrow function of lines 9-24, run with `process.env` equal to `env` on `metric`. -/
def reportCallback {μ : Type} (env : Env) (metric : μ) : Outcome μ :=
  if strictEq env.NODE_ENV "development" then
    { returned := undefined, metric := metric, effects := [Effect.consoleLog metric] }
  else
    { returned := undefined, metric := metric, effects := [] }

/-- One render of a component: the callbacks it passed to `useReportWebVitals`, in order, and
the value it returned. -/
structure Render (μ : Type) where
  registered : List (Env → μ → Outcome μ)
  returned : JSValue

/-- The component `WebVitalsReporter`, lines 8-27. -/
def WebVitalsReporter (μ : Type) : Render μ :=
  { registered := [reportCallback], returned := null }

/-- A metric record `{name, value, id}` as delivered by the host framework. The value is the
number denoted by its decimal literal; the code never computes with it. -/
structure Metric where
  name : String
  value : ℚ
  id : String

/-- The record `{name: "CLS", value: 0.12, id: "v1-23"}`. -/
def clsMetric : Metric :=
  { name := "CLS", value := 0.12, id := "v1-23" }

/-! ## The metrics callback -/

/-- C1: whenever the callback registered by `WebVitalsReporter` runs on a metric record `m`
while `NODE_ENV` is exactly `development`, its console writes are the one-element sequence
`[m]`: one entry, the record itself. -/
theorem callback_logs_metric_once_in_development {μ : Type} (env : Env) (m : μ)
    (cb : Env → μ → Outcome μ) (hcb : cb ∈ (WebVitalsReporter μ).registered)
    (hdev : env.NODE_ENV = some "development") :
    consoleWrites (cb env m).effects = [m] ∧ (consoleWrites (cb env m).effects).length = 1 := by
  simp only [WebVitalsReporter, List.mem_singleton] at hcb
  subst hcb
  simp [reportCallback, strictEq, hdev, consoleWrites]

/-- The scenario of C1: the record `{name: "CLS", value: 0.12, id: "v1-23"}` under
`NODE_ENV = development` gives exactly the console sequence made of that record. -/
theorem callback_logs_metric_once_in_development_witness :
    reportCallback ∈ (WebVitalsReporter Metric).registered ∧
    (⟨some "development", none⟩ : Env).NODE_ENV = some "development" ∧
    consoleWrites (reportCallback ⟨some "development", none⟩ clsMetric).effects = [clsMetric] ∧
    (consoleWrites (reportCallback ⟨some "development", none⟩ clsMetric).effects).length = 1 :=
  ⟨List.mem_singleton_self _, rfl,
    callback_logs_metric_once_in_development ⟨some "development", none⟩ clsMetric reportCallback
      (List.mem_singleton_self _) rfl⟩

/-- C2: whenever the callback registered by `WebVitalsReporter` runs on a metric record `m`
while `NODE_ENV` is anything but the exact string `development` (another string, a case
variant, or unset), it writes nothing to the console. -/
theorem callback_silent_outside_development {μ : Type} (env : Env) (m : μ)
    (cb : Env → μ → Outcome μ) (hcb : cb ∈ (WebVitalsReporter μ).registered)
    (hdev : env.NODE_ENV ≠ some "development") :
    consoleWrites (cb env m).effects = [] := by
  simp only [WebVitalsReporter, List.mem_singleton] at hcb
  subst hcb
  simp [reportCallback, strictEq, hdev, consoleWrites]

/-- The scenario of C2 at the case variant `Development`: no console entry. -/
theorem callback_silent_outside_development_witness :
    reportCallback ∈ (WebVitalsReporter Metric).registered ∧
    (⟨some "Development", none⟩ : Env).NODE_ENV ≠ some "development" ∧
    consoleWrites (reportCallback ⟨some "Development", none⟩ clsMetric).effects = [] :=
  ⟨List.mem_singleton_self _, by decide,
    callback_silent_outside_development ⟨some "Development", none⟩ clsMetric reportCallback
      (List.mem_singleton_self _) (by decide)⟩

/-- C8: in every environment, an invocation of the registered callback on `m` returns
`undefined`, leaves `m` as it was, performs at most one effect, every effect it performs is
the console write of `m`, and no analytics (`gtag`) event is emitted; the component
`WebVitalsReporter` itself returns `null`. -/
theorem callback_frame {μ : Type} (env : Env) (m : μ)
    (cb : Env → μ → Outcome μ) (hcb : cb ∈ (WebVitalsReporter μ).registered) :
    (cb env m).returned = undefined ∧
    (cb env m).metric = m ∧
    (cb env m).effects.length ≤ 1 ∧
    (∀ e ∈ (cb env m).effects, e = Effect.consoleLog m) ∧
    gtagEvents (cb env m).effects = [] ∧
    (WebVitalsReporter μ).returned = null := by
  simp only [WebVitalsReporter, List.mem_singleton] at hcb
  subst hcb
  unfold reportCallback
  split <;> simp [gtagEvents, WebVitalsReporter]

/-- The frame of C8 at the record `{name: "CLS", value: 0.12, id: "v1-23"}` under
`NODE_ENV = production`. -/
theorem callback_frame_witness :
    reportCallback ∈ (WebVitalsReporter Metric).registered ∧
    (reportCallback ⟨some "production", none⟩ clsMetric).returned = undefined ∧
    (reportCallback ⟨some "production", none⟩ clsMetric).metric = clsMetric ∧
    (reportCallback ⟨some "production", none⟩ clsMetric).effects.length ≤ 1 ∧
    (∀ e ∈ (reportCallback ⟨some "production", none⟩ clsMetric).effects,
      e = Effect.consoleLog clsMetric) ∧
    gtagEvents (reportCallback ⟨some "production", none⟩ clsMetric).effects = [] ∧
    (WebVitalsReporter Metric).returned = null :=
  ⟨List.mem_singleton_self _,
    callback_frame ⟨some "production", none⟩ clsMetric reportCallback
      (List.mem_singleton_self _)⟩

/-! ## The configuration object -/

/-- The option `compiler.removeConsole` holds the outcome of the production test. -/
lemma removeConsole_eq (env : Env) :
    (nextConfig env).getPath ["compiler", "removeConsole"]
      = bool (strictEq env.NODE_ENV "production") :=
  rfl

/-- The test `v === lit` succeeds exactly when `v` is set to `lit`. -/
lemma strictEq_eq_true_iff (v : Option String) (lit : String) :
    strictEq v lit = true ↔ v = some lit := by
  simp [strictEq]

/-- The test `v === lit` fails exactly when `v` is anything else. -/
lemma strictEq_eq_false_iff (v : Option String) (lit : String) :
    strictEq v lit = false ↔ v ≠ some lit := by
  simp [strictEq]

/-- C3: for every value of `NODE_ENV`, unset included, `compiler.removeConsole` is `true`
exactly when `NODE_ENV` is the string `production`, and `false` exactly when it is anything
else. -/
theorem removeConsole_iff_production (env : Env) :
    ((nextConfig env).getPath ["compiler", "removeConsole"] = bool true
      ↔ env.NODE_ENV = some "production") ∧
    ((nextConfig env).getPath ["compiler", "removeConsole"] = bool false
      ↔ env.NODE_ENV ≠ some "production") := by
  rw [removeConsole_eq]
  constructor
  · rw [← strictEq_eq_true_iff]
    constructor
    · intro h
      exact JSValue.bool.inj h
    · intro h
      rw [h]
  · rw [← strictEq_eq_false_iff]
    constructor
    · intro h
      exact JSValue.bool.inj h
    · intro h
      rw [h]

/-- C4: in every environment the configuration object has exactly the nine declared top-level
keys, in declaration order, and each declared option holds its literal value: the `images`
group (formats, cache TTL and the two size lists), the `experimental` group, the `compiler`
group with its single flag, `reactCompiler`, the two `modularizeImports` rules, and the three
toggles `poweredByHeader = false`, `productionBrowserSourceMaps = false`, `compress = true`. -/
theorem nextConfig_literal (env : Env) :
    (nextConfig env).keys = ["images", "headers", "experimental", "compiler", "reactCompiler",
      "modularizeImports", "poweredByHeader", "productionBrowserSourceMaps", "compress"] ∧
    ((nextConfig env).get "images").keys
      = ["formats", "minimumCacheTTL", "deviceSizes", "imageSizes"] ∧
    (nextConfig env).getPath ["images", "formats"] = arr [str "image/avif", str "image/webp"] ∧
    (nextConfig env).getPath ["images", "minimumCacheTTL"] = num 31536000 ∧
    (nextConfig env).getPath ["images", "deviceSizes"]
      = arr [num 640, num 750, num 828, num 1080, num 1200, num 1920, num 2048, num 3840] ∧
    (nextConfig env).getPath ["images", "imageSizes"]
      = arr [num 16, num 32, num 48, num 64, num 96, num 128, num 256, num 384] ∧
    (nextConfig env).get "headers" = asyncFn headers ∧
    ((nextConfig env).get "experimental").keys
      = ["inlineCss", "optimizePackageImports", "webpackBuildWorker"] ∧
    (nextConfig env).getPath ["experimental", "inlineCss"] = bool true ∧
    (nextConfig env).getPath ["experimental", "optimizePackageImports"]
      = arr [str "lucide-react", str "date-fns", str "react-hook-form",
          str "@radix-ui/react-dialog", str "@radix-ui/react-dropdown-menu"] ∧
    (nextConfig env).getPath ["experimental", "webpackBuildWorker"] = bool true ∧
    ((nextConfig env).get "compiler").keys = ["removeConsole"] ∧
    (nextConfig env).getPath ["compiler", "removeConsole"]
      = bool (strictEq env.NODE_ENV "production") ∧
    (nextConfig env).get "reactCompiler" = bool true ∧
    (nextConfig env).get "modularizeImports"
      = obj [
          ("lucide-react", obj [
            ("transform", str "lucide-react/dist/esm/icons/\x7b\x7bkebabCase member\x7d\x7d"),
            ("skipDefaultConversion", bool false)]),
          ("date-fns", obj [("transform", str "date-fns/\x7b\x7bmember\x7d\x7d")])] ∧
    (nextConfig env).get "poweredByHeader" = bool false ∧
    (nextConfig env).get "productionBrowserSourceMaps" = bool false ∧
    (nextConfig env).get "compress" = bool true :=
  ⟨rfl, rfl, rfl, rfl, rfl, rfl, rfl, rfl, rfl, rfl, rfl, rfl, rfl, rfl, rfl, rfl, rfl, rfl⟩

/-- C5: in every environment, calling `nextConfig.headers()` resolves to an array of exactly
two rules, first the one for `/_next/static/:path*` and then the one for `/images/:path*`,
and each rule carries exactly one header, with key `Cache-Control` and value
`public, max-age=31536000, immutable`. -/
theorem headers_two_immutable_rules (env : Env) :
    ∃ r₁ r₂ h₁ h₂ : JSValue,
      ((nextConfig env).get "headers").callAsync = some (arr [r₁, r₂]) ∧
      r₁.keys = ["source", "headers"] ∧ r₂.keys = ["source", "headers"] ∧
      r₁.get "source" = str "/_next/static/:path*" ∧
      r₂.get "source" = str "/images/:path*" ∧
      r₁.get "headers" = arr [h₁] ∧ r₂.get "headers" = arr [h₂] ∧
      h₁ = obj [("key", str "Cache-Control"),
        ("value", str "public, max-age=31536000, immutable")] ∧
      h₂ = obj [("key", str "Cache-Control"),
        ("value", str "public, max-age=31536000, immutable")] :=
  ⟨_, _, _, _, rfl, rfl, rfl, rfl, rfl, rfl, rfl, rfl, rfl⟩

/-- C6: for every value of `ANALYZE`, unset included, and whatever the bundle-analyzer plugin
is, the plugin is configured with an options object whose only property is `enabled`, which
is `true` exactly when `ANALYZE` is the string `true` (so `1`, `TRUE`, `yes` and unset give
`false`), and `module.exports` is the configured wrapper applied to `nextConfig`. -/
theorem analyzer_enabled_iff_true (plugin : JSValue → JSValue → JSValue) (env : Env) :
    ∃ b : Bool,
      (b = true ↔ env.ANALYZE = some "true") ∧
      analyzerOptions env = obj [("enabled", bool b)] ∧
      withBundleAnalyzer plugin env = plugin (obj [("enabled", bool b)]) ∧
      moduleExports plugin env = plugin (obj [("enabled", bool b)]) (nextConfig env) ∧
      analyzerOptions ⟨env.NODE_ENV, some "true"⟩ = obj [("enabled", bool true)] ∧
      analyzerOptions ⟨env.NODE_ENV, some "1"⟩ = obj [("enabled", bool false)] ∧
      analyzerOptions ⟨env.NODE_ENV, some "TRUE"⟩ = obj [("enabled", bool false)] ∧
      analyzerOptions ⟨env.NODE_ENV, some "yes"⟩ = obj [("enabled", bool false)] ∧
      analyzerOptions ⟨env.NODE_ENV, none⟩ = obj [("enabled", bool false)] :=
  ⟨strictEq env.ANALYZE "true", strictEq_eq_true_iff _ _, rfl, rfl, rfl, rfl, rfl, rfl, rfl,
    rfl⟩

/-! ## Dependence on the environment -/

/-- Reading any path from `undefined` gives `undefined`. -/
lemma getPath_undefined (path : List String) : getPath undefined path = undefined := by
  induction path with
  | nil => rfl
  | cons k ks ih => exact ih

/-- Reading a non-empty path from a boolean gives `undefined`. -/
lemma getPath_bool_cons (b : Bool) (k : String) (ks : List String) :
    getPath (bool b) (k :: ks) = undefined :=
  getPath_undefined ks

/-- Reading a path one key at a time. -/
lemma getPath_cons (v : JSValue) (k : String) (ks : List String) :
    getPath v (k :: ks) = getPath (v.get k) ks :=
  rfl

/-- The `compiler` group holds the single flag `removeConsole`. -/
lemma get_compiler (env : Env) :
    (nextConfig env).get "compiler"
      = obj [("removeConsole", bool (strictEq env.NODE_ENV "production"))] :=
  rfl

/-- Every top-level option other than `compiler` is the same in all environments. -/
lemma get_nextConfig_of_ne_compiler (e₁ e₂ : Env) (k : String) (hk : k ≠ "compiler") :
    (nextConfig e₁).get k = (nextConfig e₂).get k := by
  have hb : (k == "compiler") = false := beq_eq_false_iff_ne.mpr hk
  simp only [nextConfig, JSValue.get, List.lookup, hb]

/-- Two configuration objects are equal as soon as the production test has the same outcome. -/
lemma nextConfig_congr (e₁ e₂ : Env)
    (h : strictEq e₁.NODE_ENV "production" = strictEq e₂.NODE_ENV "production") :
    nextConfig e₁ = nextConfig e₂ := by
  unfold nextConfig
  rw [h]

/-- C7: for any two environments, the two configuration objects agree on every option path
that does not lead to `compiler.removeConsole`, they become equal once that flag is
overwritten with a common value, their `headers()` calls resolve to the same value, and the
two objects are equal exactly when the environments agree on whether `NODE_ENV` is
`production` (so the flag is the one option that depends on the environment, through that test
alone). -/
theorem nextConfig_env_independent (e₁ e₂ : Env) :
    (∀ path : List String, ¬ path <+: ["compiler", "removeConsole"] →
      (nextConfig e₁).getPath path = (nextConfig e₂).getPath path) ∧
    (∀ v : JSValue, (nextConfig e₁).setPath ["compiler", "removeConsole"] v
      = (nextConfig e₂).setPath ["compiler", "removeConsole"] v) ∧
    ((nextConfig e₁).get "headers").callAsync = ((nextConfig e₂).get "headers").callAsync ∧
    (nextConfig e₁ = nextConfig e₂ ↔
      (e₁.NODE_ENV = some "production" ↔ e₂.NODE_ENV = some "production")) := by
  refine ⟨?_, fun _ => rfl, rfl, ?_, ?_⟩
  · intro path hpath
    match path, hpath with
    | [], hpath => exact absurd List.nil_prefix hpath
    | k :: ks, hpath =>
      rw [getPath_cons, getPath_cons]
      by_cases hk : k = "compiler"
      · subst hk
        match ks, hpath with
        | [], hpath => exact absurd (by decide) hpath
        | k' :: ks', hpath =>
          rw [getPath_cons, getPath_cons]
          by_cases hk' : k' = "removeConsole"
          · subst hk'
            match ks', hpath with
            | [], hpath => exact absurd (List.prefix_refl _) hpath
            | k'' :: ks'', _ =>
              exact (getPath_bool_cons _ k'' ks'').trans (getPath_bool_cons _ k'' ks'').symm
          · have h₁ : ∀ e : Env, ((nextConfig e).get "compiler").get k' = undefined := by
              intro e
              have hb : (k' == "removeConsole") = false := beq_eq_false_iff_ne.mpr hk'
              rw [get_compiler]
              simp only [JSValue.get, List.lookup, hb]
              rfl
            rw [h₁, h₁]
      · rw [get_nextConfig_of_ne_compiler e₁ e₂ k hk]
  · intro h
    have hb := congrArg (fun c => getPath c ["compiler", "removeConsole"]) h
    simp only [removeConsole_eq] at hb
    have hs := JSValue.bool.inj hb
    rw [← strictEq_eq_true_iff, ← strictEq_eq_true_iff, hs]
  · intro h
    apply nextConfig_congr
    rw [← strictEq_eq_true_iff, ← strictEq_eq_true_iff] at h
    cases h₁ : strictEq e₁.NODE_ENV "production" <;>
      cases h₂ : strictEq e₂.NODE_ENV "production" <;> simp_all

/-- An instance of C7: a production build and a development build with the analyzer switched
on agree on `images.minimumCacheTTL`, a path away from `compiler.removeConsole`. -/
theorem nextConfig_env_independent_witness :
    ¬ ["images", "minimumCacheTTL"] <+: ["compiler", "removeConsole"] ∧
    (nextConfig ⟨some "production", none⟩).getPath ["images", "minimumCacheTTL"]
      = (nextConfig ⟨some "development", some "true"⟩).getPath ["images", "minimumCacheTTL"] :=
  ⟨by decide,
    (nextConfig_env_independent ⟨some "production", none⟩ ⟨some "development", some "true"⟩).1
      ["images", "minimumCacheTTL"] (by decide)⟩

/-- C9: for any single value of `NODE_ENV`, the registered callback never writes to the
console while `compiler.removeConsole` is `true`; and for `NODE_ENV = test` as well as for
`NODE_ENV` unset the callback writes nothing and the flag is `false`. -/
theorem logging_and_stripping_exclusive {μ : Type} (env : Env) (m : μ)
    (cb : Env → μ → Outcome μ) (hcb : cb ∈ (WebVitalsReporter μ).registered) :
    ¬ (consoleWrites (cb env m).effects ≠ [] ∧
        (nextConfig env).getPath ["compiler", "removeConsole"] = bool true) ∧
    (consoleWrites (cb ⟨some "test", env.ANALYZE⟩ m).effects = [] ∧
      (nextConfig ⟨some "test", env.ANALYZE⟩).getPath ["compiler", "removeConsole"]
        = bool false) ∧
    (consoleWrites (cb ⟨none, env.ANALYZE⟩ m).effects = [] ∧
      (nextConfig ⟨none, env.ANALYZE⟩).getPath ["compiler", "removeConsole"] = bool false) := by
  simp only [WebVitalsReporter, List.mem_singleton] at hcb
  subst hcb
  refine ⟨?_, ⟨rfl, rfl⟩, ⟨rfl, rfl⟩⟩
  rintro ⟨hlog, hstrip⟩
  rw [removeConsole_eq] at hstrip
  have hprod : env.NODE_ENV = some "production" :=
    (strictEq_eq_true_iff _ _).mp (JSValue.bool.inj hstrip)
  apply hlog
  simp [reportCallback, strictEq, hprod, consoleWrites]

/-- An instance of C9 at the record `{name: "CLS", value: 0.12, id: "v1-23"}` in a
development environment. -/
theorem logging_and_stripping_exclusive_witness :
    reportCallback ∈ (WebVitalsReporter Metric).registered ∧
    ¬ (consoleWrites (reportCallback ⟨some "development", none⟩ clsMetric).effects ≠ [] ∧
        (nextConfig ⟨some "development", none⟩).getPath ["compiler", "removeConsole"]
          = bool true) :=
  ⟨List.mem_singleton_self _,
    (logging_and_stripping_exclusive ⟨some "development", none⟩ clsMetric reportCallback
      (List.mem_singleton_self _)).1⟩

/-- C10: in every environment, `images.deviceSizes` and `images.imageSizes` are arrays of
integers, each strictly increasing, positive throughout and free of duplicates; the largest
image size is 384 and the smallest device size is 640, every image size is below every device
size, the two lists are disjoint, and `imageSizes ++ deviceSizes` is strictly increasing. -/
theorem image_sizes_well_formed (env : Env) :
    ∃ deviceSizes imageSizes : List Int,
      ((nextConfig env).getPath ["images", "deviceSizes"]).numbers? = some deviceSizes ∧
      ((nextConfig env).getPath ["images", "imageSizes"]).numbers? = some imageSizes ∧
      deviceSizes.Sorted (· < ·) ∧ imageSizes.Sorted (· < ·) ∧
      (∀ n ∈ deviceSizes, 0 < n) ∧ (∀ n ∈ imageSizes, 0 < n) ∧
      deviceSizes.Nodup ∧ imageSizes.Nodup ∧
      imageSizes.max? = some 384 ∧ deviceSizes.min? = some 640 ∧
      (∀ a ∈ imageSizes, ∀ b ∈ deviceSizes, a < b) ∧
      imageSizes.Disjoint deviceSizes ∧
      (imageSizes ++ deviceSizes).Sorted (· < ·) := by
  refine ⟨[640, 750, 828, 1080, 1200, 1920, 2048, 3840], [16, 32, 48, 64, 96, 128, 256, 384],
    rfl, rfl, ?_, ?_, ?_, ?_, ?_, ?_, ?_, ?_, ?_, List.disjoint_left.mpr ?_, ?_⟩ <;> decide

end NextPerfectScore
